import Mathlib

/-
Shallow embedding of sourmash_plugin_containment_search
(src/src/sourmash_plugin_containment_search.py).

The plugin consumes the external sourmash library; the spec (section 6)
treats sketches, the loader, downsampling, intersection and the
containment/ANI estimator as external capabilities.  Those capabilities are
modelled here as executable Lean definitions following the spec wording;
the plugin logic itself (mgsearch, mg_many_search, _search_metag) is
translated line by line from the source file.
-/

namespace ContainmentSearch

/-- Value of one field of a result row.  The source stores exact numbers,
the empty string "" (the absent marker used by `_search_metag` for weighted
fields of a subject without abundance), or Python `None` (what
`sum_abundances` yields for such a subject).  `np.std` returns the square
root of the population variance, which is irrational in general; we keep it
exact with the `sqrtv` constructor carrying the variance. -/
inductive FieldVal where
  | num (q : ℚ)
  | sqrtv (q : ℚ)
  | blank
  | noneV
deriving DecidableEq

/-- True when the field renders as an empty cell in tabular output: both the
empty string and Python None are written as an empty CSV field. -/
def FieldVal.rendersEmpty : FieldVal → Bool
  | .blank => true
  | .noneV => true
  | _ => false

/-- External sourmash MinHash (spec sections 3 and 6): a scaled set of hash
values with an optional per-hash positive multiplicity.  `hashes` is an
association list hash value to abundance; when `track_abundance` is false
every stored abundance is 1, mirroring sourmash. -/
structure MinHash where
  ksize : ℕ
  moltype : String
  scaled : ℕ
  track_abundance : Bool
  hashes : List (ℕ × ℕ)
deriving DecidableEq

/-- Number of hashes in the sketch (Python len(mh)). -/
def MinHash.size (mh : MinHash) : ℕ := mh.hashes.length

/-- Sum of all stored abundances. -/
def MinHash.total_mass (mh : MinHash) : ℕ := (mh.hashes.map Prod.snd).sum

/-- sourmash `sum_abundances`: the total multiplicity mass, or None when the
sketch does not track abundance (spec section 6, observed through the
repository tests which expect an empty `match_n_weighted_hashes` column for
an abundance-free subject). -/
def MinHash.sum_abundances (mh : MinHash) : Option ℕ :=
  if mh.track_abundance then some mh.total_mass else none

/-- Hash values of the sketch. -/
def MinHash.keys (mh : MinHash) : List ℕ := mh.hashes.map Prod.fst

/-- sourmash `flatten`: drop multiplicity information. -/
def MinHash.flatten (mh : MinHash) : MinHash :=
  { mh with
    track_abundance := false,
    hashes := mh.hashes.map (fun p => (p.1, 1)) }

/-- sourmash `intersection`: hashes present in both sketches, with
multiplicity dropped (the plugin re-attaches subject multiplicities with
`inflate`). -/
def MinHash.intersection (a b : MinHash) : MinHash :=
  { a with
    track_abundance := false,
    hashes := (a.hashes.filter (fun p => decide (p.1 ∈ b.keys))).map
                (fun p => (p.1, 1)) }

/-- sourmash `inflate`: keep the hashes of `mh`, taking abundances from
`frm`; hashes absent from `frm` are dropped. -/
def MinHash.inflate (mh frm : MinHash) : MinHash :=
  { mh with
    track_abundance := true,
    hashes := mh.hashes.filterMap (fun p =>
      match frm.hashes.find? (fun q => q.1 == p.1) with
      | some q => some (p.1, q.2)
      | none => none) }

/-- Largest hash value kept at a given scale factor (keep 1 in N of the
2^64 hash space, spec glossary). -/
def maxHashForScaled (scaled : ℕ) : ℕ := 2 ^ 64 / scaled

/-- sourmash `downsample`: restrict to a coarser scale factor.  Per spec
section 6 the behaviour for a scale below the current one is undefined and
never relied on by the core, so the model is total. -/
def MinHash.downsample (mh : MinHash) (scaled : ℕ) : MinHash :=
  { mh with
    scaled := scaled,
    hashes := mh.hashes.filter (fun p => decide (p.1 ≤ maxHashForScaled scaled)) }

/-- Insert into a sorted list of rationals (ascending). -/
def insortQ (x : ℚ) : List ℚ → List ℚ
  | [] => [x]
  | y :: ys => if x ≤ y then x :: y :: ys else y :: insortQ x ys

/-- Sort a list of rationals ascending (model of the sort inside np.median). -/
def sortQ (xs : List ℚ) : List ℚ := xs.foldr insortQ []

/-- np.mean over rationals (only invoked on non-empty input by the plugin). -/
def npMean (xs : List ℚ) : ℚ := xs.sum / xs.length

/-- np.median: middle order statistic, or the mean of the two central order
statistics for an even length (spec section 4.2). -/
def npMedian (xs : List ℚ) : ℚ :=
  let s := sortQ xs
  let n := s.length
  if n % 2 = 1 then s.getD (n / 2) 0
  else (s.getD (n / 2 - 1) 0 + s.getD (n / 2) 0) / 2

/-- Population variance (divide by N); np.std is its square root. -/
def npVar (xs : List ℚ) : ℚ :=
  (xs.map (fun x => (x - npMean xs) ^ 2)).sum / xs.length

/-- External sourmash signature: one named sketch with display metadata
(spec section 3, SampleRecord).  `md5` models the content checksum
`md5sum()` as a stored label. -/
structure Sig where
  name : String
  filename : String
  md5 : String
  minhash : MinHash
deriving DecidableEq

/-- sourmash `_display_name`: the name truncated to a width. -/
def Sig.display_name (ss : Sig) (w : ℕ) : String :=
  if ss.name.length > w then (ss.name.take (w - 3)) ++ "..." else ss.name

/-- The file system seen by the external loader: filename to the signatures
stored in that file. -/
def FileSystem := String → List Sig

/-- sourmash `load_file_as_signatures(filename, ksize=ksize)` as called at
line 351 of the source: filters on ksize only. -/
def load_file_as_signatures (fs : FileSystem) (filename : String) (ksize : ℕ) :
    List Sig :=
  (fs filename).filter (fun s => decide (s.minhash.ksize = ksize))

/-- sourmash `load_file_as_index(filename).select(ksize=, moltype=)`
followed by `signatures()`, as used for queries. -/
def load_select (fs : FileSystem) (filename : String) (ksize : ℕ)
    (moltype : String) : List Sig :=
  (fs filename).filter (fun s =>
    decide (s.minhash.ksize = ksize) && decide (s.minhash.moltype = moltype))

/-- External containment-to-ANI estimation capability (spec section 6); the
plugin only forwards its outputs into the result row. -/
structure AniCap where
  query_containment_ani : MinHash → MinHash → ℚ
  match_containment_ani : MinHash → MinHash → ℚ
  average_containment_ani : MinHash → MinHash → ℚ
  max_containment_ani : MinHash → MinHash → ℚ
  potential_false_negative : MinHash → MinHash → Bool

/-- Fields of sourmash `PrefetchResult` read by the plugin. -/
structure PrefetchFields where
  intersect_bp : ℕ
  f_match_query : ℚ
  f_query_match : ℚ
  jaccard : ℚ
  query_containment_ani : ℚ
  match_containment_ani : ℚ
  average_containment_ani : ℚ
  max_containment_ani : ℚ
  potential_false_negative : Bool
deriving DecidableEq

/-- External `PrefetchResult(query, metag, threshold_bp=0,
estimate_ani_ci=False)` modelled per spec sections 4.1 and 8: both sketches
are flattened and brought to the common (max) scale, and the shared-hash
count times the scale is the shared-base estimate.  Rational division by
zero is 0 in Lean, which only arises for empty sketches. -/
def mkPrefetchFields (cap : AniCap) (q m : MinHash) : PrefetchFields :=
  let cs := max q.scaled m.scaled
  let qd := (q.flatten).downsample cs
  let md := (m.flatten).downsample cs
  let i := qd.intersection md
  { intersect_bp := i.size * cs
    f_match_query := (i.size : ℚ) / (qd.size : ℚ)
    f_query_match := (i.size : ℚ) / (md.size : ℚ)
    jaccard := (i.size : ℚ) / ((qd.size + md.size - i.size : ℕ) : ℚ)
    query_containment_ani := cap.query_containment_ani q m
    match_containment_ani := cap.match_containment_ani q m
    average_containment_ani := cap.average_containment_ani q m
    max_containment_ani := cap.max_containment_ani q m
    potential_false_negative := cap.potential_false_negative q m }

/-- The five weighted quantities computed at lines 388-410 of the source. -/
structure WeightedStats where
  mean : FieldVal
  median : FieldVal
  std : FieldVal
  overlap_sum_abunds : FieldVal
  f_sum_abunds : FieldVal
deriving DecidableEq

/-- Lines 388-410 of `_search_metag`: if the subject tracks abundance,
intersect the query with the flattened subject; on a non-empty intersection
inflate it with subject abundances and compute mean, median, std, the
intersecting mass, and the weighted containment fraction
overlap divided by the total subject mass; on an empty intersection all five
are the number 0.  Without abundance all five are the empty-string absent
marker. -/
def weightedStats (query_mh metag_mh : MinHash) : WeightedStats :=
  if metag_mh.track_abundance then
    let flat_metag := metag_mh.flatten
    let intersect_mh := query_mh.intersection flat_metag
    if intersect_mh.size ≠ 0 then
      let w_intersect_mh := intersect_mh.inflate metag_mh
      let abunds : List ℚ := w_intersect_mh.hashes.map (fun p => (p.2 : ℚ))
      { mean := .num (npMean abunds)
        median := .num (npMedian abunds)
        std := .sqrtv (npVar abunds)
        overlap_sum_abunds := .num (w_intersect_mh.total_mass : ℚ)
        f_sum_abunds := .num ((w_intersect_mh.total_mass : ℚ) /
                              (metag_mh.total_mass : ℚ)) }
    else
      { mean := .num 0, median := .num 0, std := .num 0,
        overlap_sum_abunds := .num 0, f_sum_abunds := .num 0 }
  else
    { mean := .blank, median := .blank, std := .blank,
      overlap_sum_abunds := .blank, f_sum_abunds := .blank }

/-- Lift an optional count to a field value (Python passes `None` straight
into the row dictionary). -/
def FieldVal.ofOptNat : Option ℕ → FieldVal
  | some n => .num (n : ℚ)
  | none => .noneV

/-- One result row of `_search_metag` (the `results_d` dictionary,
display_name included; the caller deletes display_name before CSV output). -/
structure SearchRow where
  intersect_bp : ℕ
  match_filename : String
  match_name : String
  match_md5 : String
  query_filename : String
  query_name : String
  query_md5 : String
  ksize : ℕ
  moltype : String
  scaled : ℕ
  f_query : ℚ
  f_match : ℚ
  f_match_weighted : FieldVal
  sum_weighted_found : FieldVal
  average_abund : FieldVal
  median_abund : FieldVal
  std_abund : FieldVal
  query_n_hashes : ℕ
  match_n_hashes : ℕ
  match_n_weighted_hashes : FieldVal
  jaccard : ℚ
  genome_containment_ani : ℚ
  match_containment_ani : ℚ
  average_containment_ani : ℚ
  max_containment_ani : ℚ
  potential_false_negative : Bool
  display_name : String
deriving DecidableEq

/-- Lines 369-438 of `_search_metag`: assemble the result row for a resolved
subject from the prefetch fields, the weighted statistics and the identity
metadata. -/
def buildRow (cap : AniCap) (query_ss metag : Sig) (metag_filename : String)
    (ksize screen_width field_width : ℕ) : SearchRow :=
  let query_mh := query_ss.minhash
  let result := mkPrefetchFields cap query_mh metag.minhash
  let flat_metag := metag.minhash.flatten
  let ws := weightedStats query_mh metag.minhash
  { intersect_bp := result.intersect_bp
    match_filename := metag_filename
    match_name := metag.name
    match_md5 := metag.md5
    query_filename := query_ss.filename
    query_name := query_ss.name
    query_md5 := query_ss.md5
    ksize := ksize
    moltype := metag.minhash.moltype
    scaled := metag.minhash.scaled
    f_query := result.f_match_query
    f_match := result.f_query_match
    f_match_weighted := ws.f_sum_abunds
    sum_weighted_found := ws.overlap_sum_abunds
    average_abund := ws.mean
    median_abund := ws.median
    std_abund := ws.std
    query_n_hashes := query_mh.size
    match_n_hashes := flat_metag.size
    match_n_weighted_hashes := FieldVal.ofOptNat metag.minhash.sum_abundances
    jaccard := result.jaccard
    genome_containment_ani := result.query_containment_ani
    match_containment_ani := result.match_containment_ani
    average_containment_ani := result.average_containment_ani
    max_containment_ani := result.max_containment_ani
    potential_false_negative := result.potential_false_negative
    display_name := metag.display_name (screen_width - field_width) }

/-- The resolution error message of line 354 of the source. -/
def resolutionErrorMsg (n : ℕ) (filename : String) : String :=
  "need one metagenome per file for now; found " ++ toString n ++ " in '"
    ++ filename ++ "'"

/-- The abundance-requirement error message of line 361 of the source. -/
def abundanceErrorMsg (filename : String) : String :=
  "sketch in '" ++ filename ++ "' must have abundance information"

/-- `_search_metag` (lines 344-438): load the subject file (every call
performs one load), require exactly one sketch at the requested ksize,
enforce the abundance requirement, and build the result row.  The source
also assigns a LOCAL variable `missed_abundance = True` when the subject
lacks abundance (line 367); that assignment never leaves the function and
is therefore not part of its observable result. -/
def search_metag (cap : AniCap) (fs : FileSystem) (query_ss : Sig)
    (metag_filename : String) (ksize : ℕ) (require_abundance : Bool)
    (screen_width field_width : ℕ) : Except String SearchRow :=
  match load_file_as_signatures fs metag_filename ksize with
  | [metag] =>
      if require_abundance && !metag.minhash.track_abundance then
        .error (abundanceErrorMsg metag_filename)
      else
        .ok (buildRow cap query_ss metag metag_filename ksize screen_width field_width)
  | ms => .error (resolutionErrorMsg ms.length metag_filename)

/-- One cell of the interactive (condensed) line: either the explicit
not-applicable marker "N/A" or a numeric value (the source formats it with
one decimal place; the model keeps the exact value being formatted). -/
inductive Cell where
  | na
  | val (v : FieldVal)
deriving DecidableEq

/-- Lines 204 and 220-228 of `mgsearch` (identically 298 and 318-326 of
`mg_many_search`): `has_abundance = results_d['average_abund'] != ''`
selects between the numeric rendering of average_abund / f_match_weighted
and the "N/A" marker for both cells. -/
def displayCells (r : SearchRow) : Cell × Cell :=
  if r.average_abund ≠ FieldVal.blank then
    (Cell.val r.average_abund, Cell.val r.f_match_weighted)
  else
    (Cell.na, Cell.na)

/-- Observable side effects of a sweep that the claims are about: subject
load operations (one per `load_file_as_signatures` call inside
`_search_metag`), the one-time column header, the per-result interactive
line, and the post-sweep advisory note. -/
inductive Event where
  | loadSubject (filename : String)
  | header
  | row (query_name : Option String) (pct_genome : ℚ) (avg_abund : Cell)
        (pct_metag : Cell) (name : String)
  | note (msg : String)
deriving DecidableEq

/-- Outcome of a sweep entry point: early `return -1` after `error(...)`,
an uncaught ValueError, or normal completion with the accumulated result
rows (the CSV body) and display events. -/
inductive RunOutcome where
  | errExit (code : Int)
  | raised (msg : String)
  | ok (rows : List SearchRow) (events : List Event)
deriving DecidableEq

/-- Rows of a completed sweep (empty for aborted runs). -/
def RunOutcome.rows : RunOutcome → List SearchRow
  | .ok rows _ => rows
  | _ => []

/-- Events of a completed sweep (empty for aborted runs). -/
def RunOutcome.events : RunOutcome → List Event
  | .ok _ events => events
  | _ => []

/-- Number of subject load operations among the events. -/
def countLoads (events : List Event) : ℕ :=
  (events.filter (fun e => match e with | .loadSubject _ => true | _ => false)).length

/-- Number of advisory notes among the events. -/
def countNotes (events : List Event) : ℕ :=
  (events.filter (fun e => match e with | .note _ => true | _ => false)).length

/-- The advisory note text of lines 239 and 341 of the source. -/
def advisoryNote : String :=
  "** Note: N/A in column values indicate metagenomes w/o abundance tracking."

/-- The subject loop of `mgsearch` (lines 195-239).  State threaded exactly
as in the source: accumulated rows (the CSV body), display events, the
`first` header flag and the `missed_abundance` flag.  `missed_abundance` is
initialised to False at line 193 and -- because line 367 only assigns a
local variable inside `_search_metag` -- is never modified by the loop; the
advisory note after the loop is guarded by it (lines 237-239). -/
def mgsearchLoop (cap : AniCap) (fs : FileSystem) (query_ss : Sig)
    (ksize : ℕ) (require_abundance : Bool) (screen_width : ℕ) :
    List String → List SearchRow → List Event → Bool → Bool → RunOutcome
  | [], rows, events, _first, missed_abundance =>
      .ok rows (if missed_abundance then events ++ [Event.note advisoryNote] else events)
  | metag_filename :: rest, rows, events, first, missed_abundance =>
      let events := events ++ [Event.loadSubject metag_filename]
      match search_metag cap fs query_ss metag_filename ksize require_abundance
              screen_width 41 with
      | .error msg => .raised msg
      | .ok results_d =>
          let events := if first then events ++ [Event.header] else events
          let cells := displayCells results_d
          let events := events ++
            [Event.row none results_d.f_query cells.1 cells.2 results_d.display_name]
          mgsearchLoop cap fs query_ss ksize require_abundance screen_width
            rest (rows ++ [results_d]) events false missed_abundance

/-- `mgsearch` (lines 151-239): resolve exactly one query sketch at the
requested ksize and moltype (error exit on zero or several), downsample it
whenever a scale factor is given (`if scaled:` at line 174; the rebinding of
`query_ss` at lines 176-177 makes the loop use the downsampled sketch), then
sweep the subject files. -/
def mgsearch (cap : AniCap) (fs : FileSystem) (query_filename : String)
    (against_list : List String) (ksize : ℕ) (moltype : String) (scaled : ℕ)
    (require_abundance : Bool) (screen_width : ℕ) : RunOutcome :=
  match load_select fs query_filename ksize moltype with
  | [] => .errExit (-1)
  | [q0] =>
      let query_ss :=
        if scaled ≠ 0 then { q0 with minhash := q0.minhash.downsample scaled } else q0
      mgsearchLoop cap fs query_ss ksize require_abundance screen_width
        against_list [] [] true false
  | _ => .errExit (-1)

/-- The inner (query) loop of `mg_many_search` (lines 289-329): for one
subject file, call `_search_metag` once per query signature -- each call
performs its own subject load at line 351 -- and emit the display line. -/
def manyInner (cap : AniCap) (fs : FileSystem) (metag_filename : String)
    (ksize : ℕ) (require_abundance : Bool) (screen_width : ℕ) :
    List Sig → List SearchRow → List Event → Bool →
    Except String (List SearchRow × List Event × Bool)
  | [], rows, events, first => .ok (rows, events, first)
  | query_ss :: qrest, rows, events, first =>
      let events := events ++ [Event.loadSubject metag_filename]
      match search_metag cap fs query_ss metag_filename ksize require_abundance
              screen_width 21 with
      | .error msg => .error msg
      | .ok results_d =>
          let events := if first then events ++ [Event.header] else events
          let cells := displayCells results_d
          let events := events ++
            [Event.row (some (query_ss.display_name 17)) results_d.f_query
              cells.1 cells.2 results_d.display_name]
          manyInner cap fs metag_filename ksize require_abundance screen_width
            qrest (rows ++ [results_d]) events false

/-- The outer (subject) loop of `mg_many_search` (lines 287-341), with the
same dead `missed_abundance` flag as `mgsearch`. -/
def manyOuter (cap : AniCap) (fs : FileSystem) (query_sigs : List Sig)
    (ksize : ℕ) (require_abundance : Bool) (screen_width : ℕ) :
    List String → List SearchRow → List Event → Bool → Bool → RunOutcome
  | [], rows, events, _first, missed_abundance =>
      .ok rows (if missed_abundance then events ++ [Event.note advisoryNote] else events)
  | metag_filename :: rest, rows, events, first, missed_abundance =>
      match manyInner cap fs metag_filename ksize require_abundance screen_width
              query_sigs rows events first with
      | .error msg => .raised msg
      | .ok (rows, events, first) =>
          manyOuter cap fs query_sigs ksize require_abundance screen_width
            rest rows events first missed_abundance

/-- `mg_many_search` (lines 242-341): resolve every query sketch across all
query files (error exit when none resolve), run the per-sketch downsampling
loop of lines 264-269, then sweep subjects in the outer loop and queries in
the inner loop.  The downsampling loop of the source rebinds the loop
variable to a mutable COPY (`to_mutable()`) and never stores it back, so
`query_sigs` itself is unchanged; the model mirrors this by computing the
downsampled copies and not using them (the sweep iterates the original
list). -/
def mg_many_search (cap : AniCap) (fs : FileSystem)
    (query_filenames : List String) (against_list : List String)
    (ksize : ℕ) (moltype : String) (scaled : ℕ) (require_abundance : Bool)
    (screen_width : ℕ) : RunOutcome :=
  let query_sigs := query_filenames.foldr
    (fun qf acc => load_select fs qf ksize moltype ++ acc) []
  if query_sigs.isEmpty then .errExit (-1)
  else
    let _downsampled_copies := query_sigs.map (fun query_ss =>
      if scaled ≠ query_ss.minhash.scaled then
        { query_ss with minhash := query_ss.minhash.downsample scaled }
      else query_ss)
    manyOuter cap fs query_sigs ksize require_abundance screen_width
      against_list [] [] true false

/-- The list of downsampled query signatures that lines 264-269 of the
source INTEND to produce (one entry per resolved query sketch, downsampled
whenever its native scale differs from the requested one).  Used to state
how the actual sweep diverges from it. -/
def intendedDownsampledQueries (query_sigs : List Sig) (scaled : ℕ) : List Sig :=
  query_sigs.map (fun query_ss =>
    if scaled ≠ query_ss.minhash.scaled then
      { query_ss with minhash := query_ss.minhash.downsample scaled }
    else query_ss)

/-!
Concrete sketches, signatures and a file system used to instantiate the
theorems below on closed inputs.
-/

/-- A trivial instantiation of the external ANI capability, good enough for
closed instantiations (the plugin forwards its outputs untouched). -/
def cap0 : AniCap :=
  { query_containment_ani := fun _ _ => 0
    match_containment_ani := fun _ _ => 0
    average_containment_ani := fun _ _ => 0
    max_containment_ani := fun _ _ => 0
    potential_false_negative := fun _ _ => false }

/-- Query sketch: two hashes, no abundance, scale 1000. -/
def mhQ : MinHash :=
  { ksize := 31, moltype := "DNA", scaled := 1000, track_abundance := false,
    hashes := [(10, 1), (20, 1)] }

/-- Subject sketch with abundance sharing hash 10 with `mhQ`. -/
def mhAb : MinHash :=
  { ksize := 31, moltype := "DNA", scaled := 1000, track_abundance := true,
    hashes := [(10, 3), (30, 5)] }

/-- Subject sketch without abundance. -/
def mhNoAb : MinHash :=
  { ksize := 31, moltype := "DNA", scaled := 1000, track_abundance := false,
    hashes := [(10, 1), (30, 1)] }

/-- Subject sketch with abundance and no hash in common with `mhQ`. -/
def mhDisj : MinHash :=
  { ksize := 31, moltype := "DNA", scaled := 1000, track_abundance := true,
    hashes := [(40, 2), (50, 4)] }

/-- Query sketch at native scale 1000 whose second hash falls outside the
retention threshold of scale 2000 (so a downsample to 2000 drops it). -/
def mhBig : MinHash :=
  { ksize := 31, moltype := "DNA", scaled := 1000, track_abundance := false,
    hashes := [(10, 1), (10000000000000000, 1)] }

/-- Subject sketch with abundance at scale 2000. -/
def mhAb2000 : MinHash :=
  { ksize := 31, moltype := "DNA", scaled := 2000, track_abundance := true,
    hashes := [(10, 7)] }

/-- Subject sketch at the requested k-mer size 31 but of a different
alphabet (protein): it resolves to zero sketches at (ksize 31, DNA), yet
the ksize-only subject load of line 351 still finds it. -/
def mhProt : MinHash :=
  { ksize := 31, moltype := "protein", scaled := 1000, track_abundance := true,
    hashes := [(10, 2)] }

def sigQ : Sig := { name := "q", filename := "q.sig", md5 := "md5q", minhash := mhQ }

def sigQ1 : Sig := { name := "q1", filename := "q3.sig", md5 := "md5q1", minhash := mhQ }

def sigQ2 : Sig := { name := "q2", filename := "q3.sig", md5 := "md5q2", minhash := mhQ }

def sigQ3 : Sig := { name := "q3", filename := "q3.sig", md5 := "md5q3", minhash := mhQ }

def sigBig : Sig :=
  { name := "qbig", filename := "qbig.sig", md5 := "md5qbig", minhash := mhBig }

def sigAb : Sig := { name := "ab", filename := "ab.sig", md5 := "md5ab", minhash := mhAb }

def sigNoAb : Sig :=
  { name := "noab", filename := "noab.sig", md5 := "md5noab", minhash := mhNoAb }

def sigDisj : Sig :=
  { name := "disj", filename := "disj.sig", md5 := "md5disj", minhash := mhDisj }

def sigAb2000 : Sig :=
  { name := "ab2000", filename := "ab2000.sig", md5 := "md5ab2000", minhash := mhAb2000 }

def sigProt : Sig :=
  { name := "prot", filename := "prot.sig", md5 := "md5prot", minhash := mhProt }

/-- Concrete file system: each named file resolves to the signatures listed;
"q3.sig" holds three query sketches in one file. -/
def fsTest : FileSystem := fun f =>
  if f = "q.sig" then [sigQ]
  else if f = "q3.sig" then [sigQ1, sigQ2, sigQ3]
  else if f = "qbig.sig" then [sigBig]
  else if f = "ab.sig" then [sigAb]
  else if f = "noab.sig" then [sigNoAb]
  else if f = "disj.sig" then [sigDisj]
  else if f = "ab2000.sig" then [sigAb2000]
  else if f = "prot.sig" then [sigProt]
  else []

/-!
Helper lemmas about the embedded definitions.
-/

theorem weightedStats_no_abund {q m : MinHash} (h : m.track_abundance = false) :
    weightedStats q m =
      { mean := .blank, median := .blank, std := .blank,
        overlap_sum_abunds := .blank, f_sum_abunds := .blank } := by
  simp [weightedStats, h]

theorem weightedStats_empty {q m : MinHash} (ht : m.track_abundance = true)
    (hi : (q.intersection m.flatten).size = 0) :
    weightedStats q m =
      { mean := .num 0, median := .num 0, std := .num 0,
        overlap_sum_abunds := .num 0, f_sum_abunds := .num 0 } := by
  simp [weightedStats, ht, hi]

theorem weightedStats_f {q m : MinHash} (ht : m.track_abundance = true) :
    (weightedStats q m).f_sum_abunds =
      .num ((((q.intersection m.flatten).inflate m).total_mass : ℚ) /
            (m.total_mass : ℚ)) := by
  by_cases hi : (q.intersection m.flatten).size = 0
  · have hh : (q.intersection m.flatten).hashes = [] :=
      List.length_eq_zero.mp hi
    simp [weightedStats, ht, hi, MinHash.inflate, MinHash.total_mass, hh]
  · simp [weightedStats, ht, hi]

theorem hashes_nil_of_total_mass_zero {m : MinHash}
    (hpos : ∀ p ∈ m.hashes, 0 < p.2) (h : m.total_mass = 0) :
    m.hashes = [] := by
  cases hm : m.hashes with
  | nil => rfl
  | cons p t =>
      exfalso
      have hp := hpos p (by rw [hm]; exact List.mem_cons_self p t)
      have hmass : m.total_mass = p.2 + (t.map Prod.snd).sum := by
        rw [MinHash.total_mass, hm]; simp
      omega

theorem intersection_empty_of_subject_empty {q m : MinHash} (h : m.hashes = []) :
    (q.intersection m.flatten).size = 0 := by
  simp [MinHash.intersection, MinHash.size, MinHash.flatten, MinHash.keys, h]

theorem search_metag_ok {cap : AniCap} {fs : FileSystem} {query_ss : Sig}
    {metag_filename : String} {ksize : ℕ} {ra : Bool} {sw fw : ℕ} {metag : Sig}
    (hload : load_file_as_signatures fs metag_filename ksize = [metag])
    (hra : (ra && !metag.minhash.track_abundance) = false) :
    search_metag cap fs query_ss metag_filename ksize ra sw fw =
      .ok (buildRow cap query_ss metag metag_filename ksize sw fw) := by
  simp [search_metag, hload, hra]

theorem search_metag_ok_query_n_hashes {cap : AniCap} {fs : FileSystem}
    {q : Sig} {mf : String} {ksize : ℕ} {ra : Bool} {sw fw : ℕ} {r : SearchRow}
    (h : search_metag cap fs q mf ksize ra sw fw = .ok r) :
    r.query_n_hashes = q.minhash.size := by
  unfold search_metag at h
  split at h
  · split at h
    · simp at h
    · injection h with h'
      rw [← h']
      rfl
  · simp at h

theorem search_metag_abund_error {fs : FileSystem} {mf : String} {ksize : ℕ}
    {metag : Sig} (hload : load_file_as_signatures fs mf ksize = [metag])
    (ht : metag.minhash.track_abundance = false) (cap : AniCap) (q : Sig)
    (sw fw : ℕ) :
    search_metag cap fs q mf ksize true sw fw = .error (abundanceErrorMsg mf) := by
  simp [search_metag, hload, ht]

theorem search_metag_resolution_error {fs : FileSystem} {mf : String} {ksize : ℕ}
    (hn : (load_file_as_signatures fs mf ksize).length ≠ 1) (cap : AniCap)
    (q : Sig) (ra : Bool) (sw fw : ℕ) :
    search_metag cap fs q mf ksize ra sw fw =
      .error (resolutionErrorMsg (load_file_as_signatures fs mf ksize).length mf) := by
  rcases hl : load_file_as_signatures fs mf ksize with _ | ⟨a, _ | ⟨b, t⟩⟩
  · simp [search_metag, hl]
  · exact absurd (by rw [hl]; rfl) hn
  · simp [search_metag, hl]

theorem mgsearchLoop_rows_inv {cap : AniCap} {fs : FileSystem} {q : Sig}
    {ksize : ℕ} {ra : Bool} {sw : ℕ} (P : SearchRow → Prop)
    (hP : ∀ mf r, search_metag cap fs q mf ksize ra sw 41 = .ok r → P r) :
    ∀ (against : List String) (rows : List SearchRow) (events : List Event)
      (first missed : Bool) (rows2 : List SearchRow) (events2 : List Event),
      (∀ r ∈ rows, P r) →
      mgsearchLoop cap fs q ksize ra sw against rows events first missed
        = .ok rows2 events2 →
      ∀ r ∈ rows2, P r := by
  intro against
  induction against with
  | nil =>
      intro rows events first missed rows2 events2 hacc h r hr
      simp only [mgsearchLoop] at h
      have hrows : rows = rows2 := by
        cases h
        rfl
      exact hacc r (hrows ▸ hr)
  | cons mf rest ih =>
      intro rows events first missed rows2 events2 hacc h r hr
      simp only [mgsearchLoop] at h
      cases hm : search_metag cap fs q mf ksize ra sw 41 with
      | error msg => rw [hm] at h; simp at h
      | ok rd =>
          rw [hm] at h
          simp only [] at h
          refine ih (rows ++ [rd]) _ false missed rows2 events2 ?_ h r hr
          intro r' hr'
          rcases List.mem_append.mp hr' with h1 | h2
          · exact hacc r' h1
          · rw [List.mem_singleton.mp h2]
            exact hP mf rd hm

/-!
Claim theorems.
-/

/-- Claim C4: for every subject carrying multiplicity, the
weighted-containment fraction equals the intersecting multiplicity mass
divided by the total multiplicity mass of the subject, and the computation
is guarded by the emptiness of the intersection, so that a subject of total
mass 0 (necessarily empty, since every multiplicity is positive) takes the
branch with the literal 0 and no division is evaluated. -/
theorem c4_weighted_fraction_guarded
    (cap : AniCap) (fs : FileSystem) (query_ss : Sig) (metag_filename : String)
    (ksize : ℕ) (ra : Bool) (sw fw : ℕ) (metag : Sig)
    (hload : load_file_as_signatures fs metag_filename ksize = [metag])
    (ht : metag.minhash.track_abundance = true)
    (hpos : ∀ p ∈ metag.minhash.hashes, 0 < p.2) :
    ∃ r, search_metag cap fs query_ss metag_filename ksize ra sw fw = .ok r ∧
      r.f_match_weighted =
        .num ((((query_ss.minhash.intersection metag.minhash.flatten).inflate
                 metag.minhash).total_mass : ℚ) /
              (metag.minhash.total_mass : ℚ)) ∧
      (metag.minhash.total_mass = 0 →
        (query_ss.minhash.intersection metag.minhash.flatten).size = 0 ∧
        r.f_match_weighted = .num 0) := by
  have hra : (ra && !metag.minhash.track_abundance) = false := by simp [ht]
  refine ⟨buildRow cap query_ss metag metag_filename ksize sw fw,
          search_metag_ok hload hra, ?_, ?_⟩
  · show (weightedStats query_ss.minhash metag.minhash).f_sum_abunds = _
    exact weightedStats_f ht
  · intro h0
    have hnil := hashes_nil_of_total_mass_zero hpos h0
    have hie := intersection_empty_of_subject_empty (q := query_ss.minhash) hnil
    refine ⟨hie, ?_⟩
    show (weightedStats query_ss.minhash metag.minhash).f_sum_abunds = _
    rw [weightedStats_empty ht hie]

/-- Witness for C4 on a concrete subject with multiplicity. -/
theorem c4_weighted_fraction_guarded_witness :
    (load_file_as_signatures fsTest "ab.sig" 31 = [sigAb] ∧
     sigAb.minhash.track_abundance = true ∧
     ∀ p ∈ sigAb.minhash.hashes, 0 < p.2) ∧
    (∃ r, search_metag cap0 fsTest sigQ "ab.sig" 31 false 80 41 = .ok r ∧
      r.f_match_weighted =
        .num ((((sigQ.minhash.intersection sigAb.minhash.flatten).inflate
                 sigAb.minhash).total_mass : ℚ) /
              (sigAb.minhash.total_mass : ℚ)) ∧
      (sigAb.minhash.total_mass = 0 →
        (sigQ.minhash.intersection sigAb.minhash.flatten).size = 0 ∧
        r.f_match_weighted = .num 0)) :=
  ⟨⟨by decide, by decide, by decide⟩,
   c4_weighted_fraction_guarded cap0 fsTest sigQ "ab.sig" 31 false 80 41 sigAb
     (by decide) (by decide) (by decide)⟩

/-- Claim C6: when the subject sketch carries no multiplicity and the
abundance requirement is off, every weighted field of the result row is an
absent marker (the empty string for the five computed statistics, Python
None for the total mass), each rendering as an empty tabular field and none
of them the numeric value 0. -/
theorem c6_no_abundance_weighted_fields_absent
    (cap : AniCap) (fs : FileSystem) (query_ss : Sig) (metag_filename : String)
    (ksize sw fw : ℕ) (metag : Sig)
    (hload : load_file_as_signatures fs metag_filename ksize = [metag])
    (ht : metag.minhash.track_abundance = false) :
    ∃ r, search_metag cap fs query_ss metag_filename ksize false sw fw = .ok r ∧
      r.f_match_weighted = .blank ∧ r.sum_weighted_found = .blank ∧
      r.average_abund = .blank ∧ r.median_abund = .blank ∧ r.std_abund = .blank ∧
      r.match_n_weighted_hashes = .noneV ∧
      ∀ v ∈ [r.f_match_weighted, r.sum_weighted_found, r.average_abund,
             r.median_abund, r.std_abund, r.match_n_weighted_hashes],
        v.rendersEmpty = true ∧ v ≠ FieldVal.num 0 := by
  have hra : (false && !metag.minhash.track_abundance) = false := by simp
  refine ⟨buildRow cap query_ss metag metag_filename ksize sw fw,
          search_metag_ok hload hra, ?_⟩
  have hws := weightedStats_no_abund (q := query_ss.minhash) ht
  have h1 : (buildRow cap query_ss metag metag_filename ksize sw fw).f_match_weighted
      = .blank := by
    show (weightedStats query_ss.minhash metag.minhash).f_sum_abunds = _
    rw [hws]
  have h2 : (buildRow cap query_ss metag metag_filename ksize sw fw).sum_weighted_found
      = .blank := by
    show (weightedStats query_ss.minhash metag.minhash).overlap_sum_abunds = _
    rw [hws]
  have h3 : (buildRow cap query_ss metag metag_filename ksize sw fw).average_abund
      = .blank := by
    show (weightedStats query_ss.minhash metag.minhash).mean = _
    rw [hws]
  have h4 : (buildRow cap query_ss metag metag_filename ksize sw fw).median_abund
      = .blank := by
    show (weightedStats query_ss.minhash metag.minhash).median = _
    rw [hws]
  have h5 : (buildRow cap query_ss metag metag_filename ksize sw fw).std_abund
      = .blank := by
    show (weightedStats query_ss.minhash metag.minhash).std = _
    rw [hws]
  have h6 : (buildRow cap query_ss metag metag_filename ksize sw fw).match_n_weighted_hashes
      = .noneV := by
    show FieldVal.ofOptNat metag.minhash.sum_abundances = _
    simp [MinHash.sum_abundances, ht, FieldVal.ofOptNat]
  refine ⟨h1, h2, h3, h4, h5, h6, ?_⟩
  rw [h1, h2, h3, h4, h5, h6]
  decide

/-- Witness for C6 on a concrete subject without multiplicity. -/
theorem c6_no_abundance_weighted_fields_absent_witness :
    (load_file_as_signatures fsTest "noab.sig" 31 = [sigNoAb] ∧
     sigNoAb.minhash.track_abundance = false) ∧
    (∃ r, search_metag cap0 fsTest sigQ "noab.sig" 31 false 80 41 = .ok r ∧
      r.f_match_weighted = .blank ∧ r.sum_weighted_found = .blank ∧
      r.average_abund = .blank ∧ r.median_abund = .blank ∧ r.std_abund = .blank ∧
      r.match_n_weighted_hashes = .noneV ∧
      ∀ v ∈ [r.f_match_weighted, r.sum_weighted_found, r.average_abund,
             r.median_abund, r.std_abund, r.match_n_weighted_hashes],
        v.rendersEmpty = true ∧ v ≠ FieldVal.num 0) :=
  ⟨⟨by decide, by decide⟩,
   c6_no_abundance_weighted_fields_absent cap0 fsTest sigQ "noab.sig" 31 80 41
     sigNoAb (by decide) (by decide)⟩

/-- Claim C7: when the subject carries multiplicity but shares no hash with
the query, the weighted-containment fraction, intersecting mass, mean,
median and standard deviation are all the numeric value 0, never absent. -/
theorem c7_empty_intersection_weighted_zeroes
    (cap : AniCap) (fs : FileSystem) (query_ss : Sig) (metag_filename : String)
    (ksize : ℕ) (ra : Bool) (sw fw : ℕ) (metag : Sig)
    (hload : load_file_as_signatures fs metag_filename ksize = [metag])
    (ht : metag.minhash.track_abundance = true)
    (hi : (query_ss.minhash.intersection metag.minhash.flatten).size = 0) :
    ∃ r, search_metag cap fs query_ss metag_filename ksize ra sw fw = .ok r ∧
      r.f_match_weighted = .num 0 ∧ r.sum_weighted_found = .num 0 ∧
      r.average_abund = .num 0 ∧ r.median_abund = .num 0 ∧
      r.std_abund = .num 0 := by
  have hra : (ra && !metag.minhash.track_abundance) = false := by simp [ht]
  refine ⟨buildRow cap query_ss metag metag_filename ksize sw fw,
          search_metag_ok hload hra, ?_, ?_, ?_, ?_, ?_⟩
  · show (weightedStats query_ss.minhash metag.minhash).f_sum_abunds = _
    rw [weightedStats_empty ht hi]
  · show (weightedStats query_ss.minhash metag.minhash).overlap_sum_abunds = _
    rw [weightedStats_empty ht hi]
  · show (weightedStats query_ss.minhash metag.minhash).mean = _
    rw [weightedStats_empty ht hi]
  · show (weightedStats query_ss.minhash metag.minhash).median = _
    rw [weightedStats_empty ht hi]
  · show (weightedStats query_ss.minhash metag.minhash).std = _
    rw [weightedStats_empty ht hi]

/-- Witness for C7 on a concrete subject with multiplicity and no shared
hash. -/
theorem c7_empty_intersection_weighted_zeroes_witness :
    (load_file_as_signatures fsTest "disj.sig" 31 = [sigDisj] ∧
     sigDisj.minhash.track_abundance = true ∧
     (sigQ.minhash.intersection sigDisj.minhash.flatten).size = 0) ∧
    (∃ r, search_metag cap0 fsTest sigQ "disj.sig" 31 false 80 41 = .ok r ∧
      r.f_match_weighted = .num 0 ∧ r.sum_weighted_found = .num 0 ∧
      r.average_abund = .num 0 ∧ r.median_abund = .num 0 ∧
      r.std_abund = .num 0) :=
  ⟨⟨by decide, by decide, by decide⟩,
   c7_empty_intersection_weighted_zeroes cap0 fsTest sigQ "disj.sig" 31 false
     80 41 sigDisj (by decide) (by decide) (by decide)⟩

/-- Claim C8: with the abundance requirement set, a subject without
multiplicity makes `_search_metag` raise the distinct abundance error whose
message names the offending file, and both sweep loops turn it into an
abort of the whole run (no per-pair skip), whatever subjects follow. -/
theorem c8_require_abundance_fatal
    (cap : AniCap) (fs : FileSystem) (query_ss : Sig) (metag_filename : String)
    (ksize sw fw : ℕ) (metag : Sig)
    (hload : load_file_as_signatures fs metag_filename ksize = [metag])
    (ht : metag.minhash.track_abundance = false) :
    search_metag cap fs query_ss metag_filename ksize true sw fw =
      .error (abundanceErrorMsg metag_filename) ∧
    (∃ pre post, abundanceErrorMsg metag_filename =
      pre ++ metag_filename ++ post) ∧
    (∀ rest rows events first missed,
      mgsearchLoop cap fs query_ss ksize true sw (metag_filename :: rest)
        rows events first missed = .raised (abundanceErrorMsg metag_filename)) ∧
    (∀ q qs rest rows events first missed,
      manyOuter cap fs (q :: qs) ksize true sw (metag_filename :: rest)
        rows events first missed = .raised (abundanceErrorMsg metag_filename)) := by
  refine ⟨search_metag_abund_error hload ht cap query_ss sw fw,
          ⟨"sketch in '", "' must have abundance information", rfl⟩, ?_, ?_⟩
  · intro rest rows events first missed
    have herr := search_metag_abund_error hload ht cap query_ss sw 41
    simp [mgsearchLoop, herr]
  · intro q qs rest rows events first missed
    have herr := search_metag_abund_error hload ht cap q sw 21
    simp [manyOuter, manyInner, herr]

/-- Witness for C8 on a concrete abundance-free subject. -/
theorem c8_require_abundance_fatal_witness :
    (load_file_as_signatures fsTest "noab.sig" 31 = [sigNoAb] ∧
     sigNoAb.minhash.track_abundance = false) ∧
    (search_metag cap0 fsTest sigQ "noab.sig" 31 true 80 41 =
      .error (abundanceErrorMsg "noab.sig") ∧
    (∃ pre post, abundanceErrorMsg "noab.sig" = pre ++ "noab.sig" ++ post) ∧
    (∀ rest rows events first missed,
      mgsearchLoop cap0 fsTest sigQ 31 true 80 ("noab.sig" :: rest)
        rows events first missed = .raised (abundanceErrorMsg "noab.sig")) ∧
    (∀ q qs rest rows events first missed,
      manyOuter cap0 fsTest (q :: qs) 31 true 80 ("noab.sig" :: rest)
        rows events first missed = .raised (abundanceErrorMsg "noab.sig"))) :=
  ⟨⟨by decide, by decide⟩,
   c8_require_abundance_fatal cap0 fsTest sigQ "noab.sig" 31 80 41 sigNoAb
     (by decide) (by decide)⟩

/-- Claim C9 as amended: a subject file resolving to zero or several
sketches at the requested k-mer size -- the subject load of line 351 filters
on ksize only, not on the alphabet, which is what
`c9_resolution_error_counterexample` exhibits against the original claim --
makes `_search_metag` raise the resolution error whose message names the
file and the resolved count, and both sweep loops abort the whole run on
it, whatever subjects follow. -/
theorem c9_resolution_error_fatal
    (cap : AniCap) (fs : FileSystem) (query_ss : Sig) (metag_filename : String)
    (ksize : ℕ) (ra : Bool) (sw fw : ℕ)
    (hn : (load_file_as_signatures fs metag_filename ksize).length ≠ 1) :
    search_metag cap fs query_ss metag_filename ksize ra sw fw =
      .error (resolutionErrorMsg
        (load_file_as_signatures fs metag_filename ksize).length metag_filename) ∧
    (∀ n, ∃ pre mid post, resolutionErrorMsg n metag_filename =
      pre ++ toString n ++ mid ++ metag_filename ++ post) ∧
    (∀ rest rows events first missed,
      mgsearchLoop cap fs query_ss ksize ra sw (metag_filename :: rest)
        rows events first missed = .raised (resolutionErrorMsg
          (load_file_as_signatures fs metag_filename ksize).length metag_filename)) ∧
    (∀ q qs rest rows events first missed,
      manyOuter cap fs (q :: qs) ksize ra sw (metag_filename :: rest)
        rows events first missed = .raised (resolutionErrorMsg
          (load_file_as_signatures fs metag_filename ksize).length metag_filename)) := by
  refine ⟨search_metag_resolution_error hn cap query_ss ra sw fw,
          fun n => ⟨"need one metagenome per file for now; found ", " in '", "'", rfl⟩,
          ?_, ?_⟩
  · intro rest rows events first missed
    have herr := search_metag_resolution_error hn cap query_ss ra sw 41
    simp [mgsearchLoop, herr]
  · intro q qs rest rows events first missed
    have herr := search_metag_resolution_error hn cap q ra sw 21
    simp [manyOuter, manyInner, herr]

/-- Witness for C9 on a concrete subject file holding three sketches. -/
theorem c9_resolution_error_fatal_witness :
    ((load_file_as_signatures fsTest "q3.sig" 31).length ≠ 1) ∧
    (search_metag cap0 fsTest sigQ "q3.sig" 31 false 80 41 =
      .error (resolutionErrorMsg
        (load_file_as_signatures fsTest "q3.sig" 31).length "q3.sig") ∧
    (∀ n, ∃ pre mid post, resolutionErrorMsg n "q3.sig" =
      pre ++ toString n ++ mid ++ "q3.sig" ++ post) ∧
    (∀ rest rows events first missed,
      mgsearchLoop cap0 fsTest sigQ 31 false 80 ("q3.sig" :: rest)
        rows events first missed = .raised (resolutionErrorMsg
          (load_file_as_signatures fsTest "q3.sig" 31).length "q3.sig")) ∧
    (∀ q qs rest rows events first missed,
      manyOuter cap0 fsTest (q :: qs) 31 false 80 ("q3.sig" :: rest)
        rows events first missed = .raised (resolutionErrorMsg
          (load_file_as_signatures fsTest "q3.sig" 31).length "q3.sig"))) :=
  ⟨by decide,
   c9_resolution_error_fatal cap0 fsTest sigQ "q3.sig" 31 false 80 41 (by decide)⟩

/-- Counterexample to claim C9 as stated: the file "prot.sig" resolves to
ZERO sketches at the requested k-mer size 31 AND alphabet DNA (its only
k31 sketch is protein), so the claim demands a fatal resolution error; yet
the subject load of line 351 filters on ksize only, finds that one sketch,
and `_search_metag` completes normally with a result row instead of
raising. -/
theorem c9_resolution_error_counterexample :
    (load_select fsTest "prot.sig" 31 "DNA").length = 0 ∧
    search_metag cap0 fsTest sigQ "prot.sig" 31 false 80 41 =
      .ok (buildRow cap0 sigQ sigProt "prot.sig" 31 80 41) :=
  ⟨by decide, search_metag_ok (by decide) (by decide)⟩

/-- Claim C5: in the single-query sweep, when the native scale of the query
is finer than the requested scale factor the query sketch is downsampled to
the requested scale, the whole sweep runs on the downsampled sketch, and in
particular every produced row reports the downsampled query size. -/
theorem c5_single_query_downsample
    (cap : AniCap) (fs : FileSystem) (query_filename : String)
    (against_list : List String) (ksize : ℕ) (moltype : String) (scaled : ℕ)
    (ra : Bool) (sw : ℕ) (q0 : Sig)
    (hres : load_select fs query_filename ksize moltype = [q0])
    (hfiner : q0.minhash.scaled < scaled) :
    mgsearch cap fs query_filename against_list ksize moltype scaled ra sw =
      mgsearchLoop cap fs { q0 with minhash := q0.minhash.downsample scaled }
        ksize ra sw against_list [] [] true false ∧
    ∀ rows events,
      mgsearch cap fs query_filename against_list ksize moltype scaled ra sw
        = .ok rows events →
      ∀ r ∈ rows, r.query_n_hashes = (q0.minhash.downsample scaled).size := by
  have hs : scaled ≠ 0 := by omega
  have heq : mgsearch cap fs query_filename against_list ksize moltype scaled ra sw =
      mgsearchLoop cap fs { q0 with minhash := q0.minhash.downsample scaled }
        ksize ra sw against_list [] [] true false := by
    simp [mgsearch, hres, hs]
  refine ⟨heq, ?_⟩
  intro rows events h r hr
  rw [heq] at h
  refine mgsearchLoop_rows_inv
    (fun r => r.query_n_hashes = (q0.minhash.downsample scaled).size)
    (fun mf rr hok => ?_) against_list [] [] true false rows events
    (by intro r' hr'; cases hr') h r hr
  exact search_metag_ok_query_n_hashes hok

/-- Witness for C5: a concrete query of native scale 1000 swept at scale
2000 against one subject. -/
theorem c5_single_query_downsample_witness :
    (load_select fsTest "qbig.sig" 31 "DNA" = [sigBig] ∧
     sigBig.minhash.scaled < 2000) ∧
    (mgsearch cap0 fsTest "qbig.sig" ["ab2000.sig"] 31 "DNA" 2000 false 80 =
      mgsearchLoop cap0 fsTest { sigBig with minhash := sigBig.minhash.downsample 2000 }
        31 false 80 ["ab2000.sig"] [] [] true false ∧
    ∀ rows events,
      mgsearch cap0 fsTest "qbig.sig" ["ab2000.sig"] 31 "DNA" 2000 false 80
        = .ok rows events →
      ∀ r ∈ rows, r.query_n_hashes = (sigBig.minhash.downsample 2000).size) :=
  ⟨⟨by decide, by decide⟩,
   c5_single_query_downsample cap0 fsTest "qbig.sig" ["ab2000.sig"] 31 "DNA"
     2000 false 80 sigBig (by decide) (by decide)⟩

/-- Claim C10: the interactive line shows the not-applicable marker for mean
abundance and weighted-containment percentage exactly when the subject lacks
multiplicity (detected through average_abund being the empty-string absent
marker), while a subject with multiplicity and no shared hash shows the
numeric value 0 in both cells. -/
theorem c10_na_iff_no_multiplicity
    (cap : AniCap) (fs : FileSystem) (query_ss : Sig) (metag_filename : String)
    (ksize : ℕ) (ra : Bool) (sw fw : ℕ) (metag : Sig) (r : SearchRow)
    (hload : load_file_as_signatures fs metag_filename ksize = [metag])
    (hok : search_metag cap fs query_ss metag_filename ksize ra sw fw = .ok r) :
    (displayCells r = (Cell.na, Cell.na) ↔
      metag.minhash.track_abundance = false) ∧
    (metag.minhash.track_abundance = true ∧
       (query_ss.minhash.intersection metag.minhash.flatten).size = 0 →
     displayCells r = (Cell.val (.num 0), Cell.val (.num 0))) := by
  have hr : r = buildRow cap query_ss metag metag_filename ksize sw fw := by
    by_cases hc : (ra && !metag.minhash.track_abundance) = true
    · rw [search_metag, hload] at hok
      simp [hc] at hok
    · have hc' : (ra && !metag.minhash.track_abundance) = false := by
        revert hc
        cases ra && !metag.minhash.track_abundance <;> simp
      rw [search_metag_ok hload hc'] at hok
      injection hok with h'
      exact h'.symm
  subst hr
  cases ht : metag.minhash.track_abundance with
  | false =>
      have havg : (buildRow cap query_ss metag metag_filename ksize sw fw).average_abund
          = .blank := by
        show (weightedStats query_ss.minhash metag.minhash).mean = _
        rw [weightedStats_no_abund ht]
      constructor
      · simp [displayCells, havg]
      · rintro ⟨h1, _⟩
        exact absurd h1 (by decide)
  | true =>
      by_cases hi : (query_ss.minhash.intersection metag.minhash.flatten).size = 0
      · have hws := weightedStats_empty (q := query_ss.minhash) ht hi
        have havg : (buildRow cap query_ss metag metag_filename ksize sw fw).average_abund
            = .num 0 := by
          show (weightedStats query_ss.minhash metag.minhash).mean = _
          rw [hws]
        have hf : (buildRow cap query_ss metag metag_filename ksize sw fw).f_match_weighted
            = .num 0 := by
          show (weightedStats query_ss.minhash metag.minhash).f_sum_abunds = _
          rw [hws]
        constructor
        · simp [displayCells, havg]
        · intro _
          simp [displayCells, havg, hf]
      · have havg : (buildRow cap query_ss metag metag_filename ksize sw fw).average_abund
            = .num (npMean (((query_ss.minhash.intersection metag.minhash.flatten).inflate
                metag.minhash).hashes.map (fun p => (p.2 : ℚ)))) := by
          show (weightedStats query_ss.minhash metag.minhash).mean = _
          simp [weightedStats, ht, hi]
        constructor
        · simp [displayCells, havg]
        · rintro ⟨_, h2⟩
          exact absurd h2 hi

/-- Witness for C10: an abundance-free subject displays the N/A pair. -/
theorem c10_na_iff_no_multiplicity_witness :
    (load_file_as_signatures fsTest "noab.sig" 31 = [sigNoAb] ∧
     search_metag cap0 fsTest sigQ "noab.sig" 31 false 80 41 =
       .ok (buildRow cap0 sigQ sigNoAb "noab.sig" 31 80 41)) ∧
    ((displayCells (buildRow cap0 sigQ sigNoAb "noab.sig" 31 80 41)
        = (Cell.na, Cell.na) ↔ sigNoAb.minhash.track_abundance = false) ∧
    (sigNoAb.minhash.track_abundance = true ∧
       (sigQ.minhash.intersection sigNoAb.minhash.flatten).size = 0 →
     displayCells (buildRow cap0 sigQ sigNoAb "noab.sig" 31 80 41)
        = (Cell.val (.num 0), Cell.val (.num 0)))) :=
  ⟨⟨by decide, search_metag_ok (by decide) (by decide)⟩,
   c10_na_iff_no_multiplicity cap0 fsTest sigQ "noab.sig" 31 false 80 41
     sigNoAb (buildRow cap0 sigQ sigNoAb "noab.sig" 31 80 41)
     (by decide) (search_metag_ok (by decide) (by decide))⟩

/-- Claim C1 (refuted by the code): in the many-query sweep each call of
`_search_metag` performs its own subject load, so with 3 resolved query
sketches and 2 subject files the sweep performs 6 subject load operations,
3 per subject file -- not one per subject file (2 in total) as the claim and
the docstring of `mg_many_search` state. -/
theorem c1_many_sweep_loads_once_per_pair :
    (load_select fsTest "q3.sig" 31 "DNA").length = 3 ∧
    ["ab.sig", "disj.sig"].length = 2 ∧
    countLoads (mg_many_search cap0 fsTest ["q3.sig"] ["ab.sig", "disj.sig"]
      31 "DNA" 1000 false 80).events = 6 ∧
    countLoads (mg_many_search cap0 fsTest ["q3.sig"] ["ab.sig", "disj.sig"]
      31 "DNA" 1000 false 80).events ≠ ["ab.sig", "disj.sig"].length := by decide

/-- Claim C2 (refuted by the code): the downsampling loop of
`mg_many_search` rebinds its loop variable to a mutable copy and never
stores the copy back, so the sweep iterates the ORIGINAL query signatures.
Concretely, for a query of native scale 1000 swept at scale 2000 the
intended downsampled sketch has 1 hash, yet the produced row reports the
original 2 hashes as the query size. -/
theorem c2_many_sweep_downsample_discarded :
    sigBig.minhash.scaled ≠ 2000 ∧
    (intendedDownsampledQueries (load_select fsTest "qbig.sig" 31 "DNA") 2000).map
      (fun q => q.minhash.size) = [1] ∧
    (mg_many_search cap0 fsTest ["qbig.sig"] ["ab2000.sig"] 31 "DNA" 2000
      false 80).rows.map (fun r => r.query_n_hashes) = [2] := by decide

/-- Claim C3 (refuted by the code): `missed_abundance = True` at line 367 of
the source only assigns a local variable of `_search_metag`, so the
sweep-wide flag initialised to False in both entry points stays False and
the advisory note is never printed -- here, both sweeps compare a subject
without multiplicity (the produced row carries the absent marker) and still
emit zero advisory notes. -/
theorem c3_advisory_note_never_emitted :
    (mgsearch cap0 fsTest "q.sig" ["noab.sig"] 31 "DNA" 1000 false 80).rows.map
      (fun r => r.average_abund) = [FieldVal.blank] ∧
    countNotes (mgsearch cap0 fsTest "q.sig" ["noab.sig"] 31 "DNA" 1000
      false 80).events = 0 ∧
    (mg_many_search cap0 fsTest ["q.sig"] ["noab.sig"] 31 "DNA" 1000
      false 80).rows.map (fun r => r.average_abund) = [FieldVal.blank] ∧
    countNotes (mg_many_search cap0 fsTest ["q.sig"] ["noab.sig"] 31 "DNA"
      1000 false 80).events = 0 := by decide

end ContainmentSearch
